import Mathlib

/-!
# TrailPack catalog/item reconciliation engine — verification development

Shallow embedding of the persistence layer of `src/server/index.js`
(the functions returned by `createPostgresDb` and `createSqliteDb`) and of
the relevant HTTP handlers, as pure functions over an explicit database
state.  Rows live in Lean lists in insertion order; `id` columns are
assigned from per-table counters, mirroring the BIGSERIAL / AUTOINCREMENT
sequences.  SQL statements become explicit `List.map` / `List.filter`
transformations of the row lists; `SELECT ... LIMIT 1` on a unique key
becomes `List.find?`; `ORDER BY id ASC LIMIT 1` becomes a minimum-by-id
scan.  JavaScript numbers that the server validates to be positive
integers (weights, quantities) are embedded as `Int`.
-/

namespace TrailPack

/-- A row of the `items` table (columns of `src/server/index.js`).
The SQL column `type` is rendered `ty` (`type` is a Lean keyword);
`list_id` is nullable (`BIGINT` with no NOT NULL). -/
structure Item where
  id : Nat
  user_id : Nat
  list_id : Option Nat
  name : String
  description : String
  category : String
  ty : String
  weight : Int
  qty : Int
deriving Repr, DecidableEq

/-- A row of the `gear_library` table (the catalog), with its
`UNIQUE(user_id, name, category, type, weight)` natural key. -/
structure GearRow where
  id : Nat
  user_id : Nat
  name : String
  description : String
  category : String
  ty : String
  weight : Int
  default_qty : Int
deriving Repr, DecidableEq

/-- A row of the `pack_lists` table.  The `destination` column is always
written as `''` by every code path embedded here, so it is omitted. -/
structure PackListRow where
  id : Nat
  user_id : Nat
  name : String
deriving Repr, DecidableEq

/-- The database state: the three tables touched by the reconciliation
engine, plus the id sequences. -/
structure Db where
  lists : List PackListRow
  items : List Item
  gears : List GearRow
  nextListId : Nat
  nextItemId : Nat
  nextGearId : Nat
deriving Repr, DecidableEq

/-- Candidate attributes for a catalog upsert (`upsertGear`'s `gear`
argument / the `EXCLUDED` values). -/
structure GearCandidate where
  name : String
  description : String
  category : String
  ty : String
  weight : Int
  defaultQty : Int
deriving Repr, DecidableEq

/-! ## Row-level statement helpers (the embedded SQL statements) -/

/-- `SELECT ... FROM items WHERE id = ? AND user_id = ? LIMIT 1`. -/
def getItemById (db : Db) (id userId : Nat) : Option Item :=
  db.items.find? (fun i => i.id == id && i.user_id == userId)

/-- `SELECT ... FROM pack_lists WHERE user_id = ? AND id = ? LIMIT 1`. -/
def getPackListById (db : Db) (userId listId : Nat) : Option PackListRow :=
  db.lists.find? (fun l => l.user_id == userId && l.id == listId)

/-- Minimum-by-id scan: `ORDER BY id ASC LIMIT 1` over a row list. -/
def minListById : List PackListRow → Option PackListRow
  | [] => none
  | r :: rs =>
    match minListById rs with
    | none => some r
    | some m => some (if r.id ≤ m.id then r else m)

/-- `SELECT id, name FROM pack_lists WHERE user_id = ? ORDER BY id ASC LIMIT 1`. -/
def firstPackList (db : Db) (userId : Nat) : Option PackListRow :=
  minListById (db.lists.filter (fun l => l.user_id == userId))

/-- `SELECT COUNT(*) FROM pack_lists WHERE user_id = ?`. -/
def countPackLists (db : Db) (userId : Nat) : Nat :=
  (db.lists.filter (fun l => l.user_id == userId)).length

/-- `INSERT INTO pack_lists (user_id, name, destination) VALUES (?, ?, '')`. -/
def insertPackList (db : Db) (userId : Nat) (name : String) : PackListRow × Db :=
  let l : PackListRow := ⟨db.nextListId, userId, name⟩
  (l, { db with lists := db.lists ++ [l], nextListId := db.nextListId + 1 })

/-- `INSERT INTO items (user_id, list_id, name, description, category, type, weight, qty)`. -/
def insertItem (db : Db) (userId : Nat) (listId : Option Nat)
    (name description category ty : String) (weight qty : Int) : Item × Db :=
  let it : Item := ⟨db.nextItemId, userId, listId, name, description, category, ty, weight, qty⟩
  (it, { db with items := db.items ++ [it], nextItemId := db.nextItemId + 1 })

/-- Natural-key predicate on catalog rows:
`user_id = ? AND name = ? AND category = ? AND type = ? AND weight = ?`. -/
def gearKeyP (userId : Nat) (name category ty : String) (weight : Int)
    (g : GearRow) : Bool :=
  g.user_id == userId && g.name == name && g.category == category &&
    g.ty == ty && g.weight == weight

/-- `SELECT ... FROM gear_library WHERE <natural key> LIMIT 1`
(the key is UNIQUE, so at most one row matches). -/
def findGearByKey (db : Db) (userId : Nat) (name category ty : String)
    (weight : Int) : Option GearRow :=
  db.gears.find? (gearKeyP userId name category ty weight)

/-! ## Seed data (`defaultListName`, `defaultSeedItems`) -/

/-- One entry of the fixed starter set `defaultSeedItems`. -/
structure SeedItem where
  name : String
  category : String
  ty : String
  weight : Int
  qty : Int
deriving Repr, DecidableEq

def defaultListName : String := "默认行程"

def defaultSeedItems : List SeedItem :=
  [ ⟨"双人帐篷", "睡眠系统", "base", 1280, 1⟩,
    ⟨"羽绒睡袋", "睡眠系统", "base", 920, 1⟩,
    ⟨"冲锋衣", "衣物", "worn", 460, 1⟩,
    ⟨"炉头+气罐", "炊具", "base", 380, 1⟩,
    ⟨"头灯", "电子设备", "base", 95, 1⟩,
    ⟨"能量胶", "其他", "consumable", 45, 6⟩ ]

/-! ## List lifecycle operations -/

/-- The seed-time catalog upsert of `ensureDefaultList`:
`INSERT INTO gear_library ... ON CONFLICT (natural key)
DO UPDATE SET default_qty = EXCLUDED.default_qty`
(description is inserted as `''` and NOT updated on conflict). -/
def seedUpsertGear (db : Db) (userId : Nat) (s : SeedItem) : Db :=
  match findGearByKey db userId s.name s.category s.ty s.weight with
  | some g =>
    { db with gears := db.gears.map (fun r =>
        if r.id = g.id then { r with default_qty := s.qty } else r) }
  | none =>
    { db with
      gears := db.gears ++
        [⟨db.nextGearId, userId, s.name, "", s.category, s.ty, s.weight, s.qty⟩],
      nextGearId := db.nextGearId + 1 }

/-- The defensive migration step run on every `ensureDefaultList` call:
`UPDATE items SET list_id = ? WHERE user_id = ? AND list_id IS NULL`. -/
def attachOrphanItems (db : Db) (userId listId : Nat) : Db :=
  { db with items := db.items.map (fun i =>
      if i.user_id = userId ∧ i.list_id = none
      then { i with list_id := some listId } else i) }

/-- `ensureDefaultList(userId)` — identical in the postgres and sqlite
backends: return the user's first list by id, creating and seeding a
default list when none exists, then attach orphaned items to it. -/
def ensureDefaultList (db : Db) (userId : Nat) : PackListRow × Db :=
  match firstPackList db userId with
  | some l => (l, attachOrphanItems db userId l.id)
  | none =>
    let (l, db1) := insertPackList db userId defaultListName
    let db2 := defaultSeedItems.foldl
      (fun acc s =>
        (insertItem (seedUpsertGear acc userId s) userId (some l.id)
          s.name "" s.category s.ty s.weight s.qty).2)
      db1
    (l, attachOrphanItems db2 userId l.id)

/-- `createPackList(userId, name)` — identical in both backends. -/
def createPackList (db : Db) (userId : Nat) (name : String) : PackListRow × Db :=
  insertPackList db userId name

/-- `clonePackList(userId, sourceListId, name)`, postgres backend.
The copying `INSERT ... SELECT` lists the columns
`user_id, list_id, name, category, type, weight, qty` — it omits
`description`, so every copied row takes the column default `''`. -/
def clonePackList_pg (db : Db) (userId sourceListId : Nat) (name : String) :
    PackListRow × Db :=
  let (l, db1) := insertPackList db userId name
  let src := db1.items.filter (fun i => i.user_id == userId && i.list_id == some sourceListId)
  let db2 := src.foldl
    (fun acc it =>
      (insertItem acc userId (some l.id) it.name "" it.category it.ty it.weight it.qty).2)
    db1
  (l, db2)

/-- `clonePackList(userId, sourceListId, name)`, sqlite backend.
Its `INSERT ... SELECT` also copies the `description` column. -/
def clonePackList_sq (db : Db) (userId sourceListId : Nat) (name : String) :
    PackListRow × Db :=
  let (l, db1) := insertPackList db userId name
  let src := db1.items.filter (fun i => i.user_id == userId && i.list_id == some sourceListId)
  let db2 := src.foldl
    (fun acc it =>
      (insertItem acc userId (some l.id) it.name it.description it.category it.ty it.weight it.qty).2)
    db1
  (l, db2)

/-- `deletePackList(userId, listId)` — identical in both backends:
delete the list's items, then the list; return the number of deleted
list rows (`rowCount` / `changes`). -/
def deletePackList (db : Db) (userId listId : Nat) : Nat × Db :=
  let db1 := { db with items := db.items.filter (fun i =>
    ¬(i.user_id = userId ∧ i.list_id = some listId)) }
  let deleted := (db1.lists.filter (fun l => l.user_id == userId && l.id == listId)).length
  (deleted,
   { db1 with lists := db1.lists.filter (fun l => ¬(l.user_id = userId ∧ l.id = listId)) })

/-- Outcome of the `DELETE /api/lists/:id` handler (the JSON payloads
`lists`/`activeListId` are read-only projections, omitted here). -/
inductive DeleteListOutcome where
  | lastListProtected
  | notFound
  | ok
deriving Repr, DecidableEq

/-- The `DELETE /api/lists/:id` handler: refuse when the user has at
most one list, otherwise delete and report NotFound when nothing was
deleted. -/
def deleteListHandler (db : Db) (userId listId : Nat) : DeleteListOutcome × Db :=
  if countPackLists db userId ≤ 1 then (.lastListProtected, db)
  else
    let (changes, db') := deletePackList db userId listId
    if changes = 0 then (.notFound, db') else (.ok, db')

/-! ## Direct single-row item edits -/

/-- `UPDATE items SET type = ? WHERE id = ? AND user_id = ?` followed by
the read-back of the updated row (`RETURNING` on postgres, a re-select
on sqlite — the same row either way). -/
def updateItemType (db : Db) (id userId : Nat) (ty : String) : Option Item × Db :=
  let db' := { db with items := db.items.map (fun i =>
    if i.id = id ∧ i.user_id = userId then { i with ty := ty } else i) }
  (getItemById db' id userId, db')

/-- `UPDATE items SET category = ? WHERE id = ? AND user_id = ?` with
read-back, as for `updateItemType`. -/
def updateItemCategory (db : Db) (id userId : Nat) (category : String) :
    Option Item × Db :=
  let db' := { db with items := db.items.map (fun i =>
    if i.id = id ∧ i.user_id = userId then { i with category := category } else i) }
  (getItemById db' id userId, db')

/-! ## Catalog synchronizer: description fan-out

`updateItemDescriptionAndSync` issues two bare statements — the items
fan-out and the catalog update — with no surrounding transaction, in
both backends.  Each statement is embedded separately so that the state
between the two statements is expressible. -/

/-- First statement: `UPDATE items SET description = ?
WHERE user_id = ? AND name = ? AND type = ? AND weight = ?`
(category deliberately absent from the match key). -/
def descItemsStmt (db : Db) (userId : Nat) (name ty : String) (weight : Int)
    (description : String) : Db :=
  { db with items := db.items.map (fun i =>
      if i.user_id = userId ∧ i.name = name ∧ i.ty = ty ∧ i.weight = weight
      then { i with description := description } else i) }

/-- Second statement: `UPDATE gear_library SET description = ?
WHERE user_id = ? AND name = ? AND type = ? AND weight = ?`. -/
def descGearsStmt (db : Db) (userId : Nat) (name ty : String) (weight : Int)
    (description : String) : Db :=
  { db with gears := db.gears.map (fun g =>
      if g.user_id = userId ∧ g.name = name ∧ g.ty = ty ∧ g.weight = weight
      then { g with description := description } else g) }

/-- `updateItemDescriptionAndSync(id, userId, description)`, postgres
backend: read the item, run `descItemsStmt` then `descGearsStmt` (two
separate statements, no transaction), return the freshly-read row. -/
def updateItemDescriptionAndSync_pg (db : Db) (id userId : Nat)
    (description : String) : Option Item × Db :=
  match getItemById db id userId with
  | none => (none, db)
  | some it =>
    let db1 := descItemsStmt db userId it.name it.ty it.weight description
    let db2 := descGearsStmt db1 userId it.name it.ty it.weight description
    (getItemById db2 id userId, db2)

/-- `updateItemDescriptionAndSync(id, userId, description)`, sqlite
backend: the same two bare statements. -/
def updateItemDescriptionAndSync_sq (db : Db) (id userId : Nat)
    (description : String) : Option Item × Db :=
  match getItemById db id userId with
  | none => (none, db)
  | some it =>
    let db1 := descItemsStmt db userId it.name it.ty it.weight description
    let db2 := descGearsStmt db1 userId it.name it.ty it.weight description
    (getItemById db2 id userId, db2)

/-! ## Catalog synchronizer: weight fan-out and catalog merge -/

/-- The items fan-out statement shared by both weight-sync backends:
`UPDATE items SET weight = ? WHERE user_id = ? AND name = ? AND
category = ? AND type = ? AND weight = ?` (the pre-edit key). -/
def weightItemsStmt (db : Db) (userId : Nat) (name category ty : String)
    (oldWeight newWeight : Int) : Db :=
  { db with items := db.items.map (fun i =>
      if i.user_id = userId ∧ i.name = name ∧ i.category = category ∧
         i.ty = ty ∧ i.weight = oldWeight
      then { i with weight := newWeight } else i) }

/-- `updateItemWeightAndSync(id, userId, weight)`, postgres backend.
Inside one transaction: fan the new weight out to every item of the
user matching the pre-edit `(name, category, type, weight)` key; then
`INSERT INTO gear_library ... ON CONFLICT (natural key) DO UPDATE SET
default_qty = GREATEST(existing, EXCLUDED), description = EXCLUDED
RETURNING id` at the NEW key (candidate values taken from the edited
item); then delete catalog rows at the OLD key whose id differs from
the returned id.  (The source's fallback branch for a missing
`RETURNING` id is dead: `INSERT ... ON CONFLICT DO UPDATE ... RETURNING`
always yields a row.)  Finally re-read and return the edited item. -/
def updateItemWeightAndSync_pg (db : Db) (id userId : Nat) (weight : Int) :
    Option Item × Db :=
  match getItemById db id userId with
  | none => (none, db)
  | some it =>
    if it.weight = weight then (some it, db)
    else
      let db1 := weightItemsStmt db userId it.name it.category it.ty it.weight weight
      let (mergedId, db2) : Nat × Db :=
        match findGearByKey db1 userId it.name it.category it.ty weight with
        | some g =>
          (g.id,
           { db1 with gears := db1.gears.map (fun r =>
               if r.id = g.id
               then { r with default_qty := max r.default_qty it.qty,
                             description := it.description }
               else r) })
        | none =>
          (db1.nextGearId,
           { db1 with
             gears := db1.gears ++
               [⟨db1.nextGearId, userId, it.name, it.description, it.category,
                 it.ty, weight, it.qty⟩],
             nextGearId := db1.nextGearId + 1 })
      let db3 := { db2 with gears := db2.gears.filter (fun g =>
        ¬(g.user_id = userId ∧ g.name = it.name ∧ g.category = it.category ∧
          g.ty = it.ty ∧ g.weight = it.weight ∧ g.id ≠ mergedId)) }
      (getItemById db3 id userId, db3)

/-- `updateItemWeightAndSync(id, userId, weight)`, sqlite backend.
Same fan-out; but the catalog step first looks up a row at the NEW key
and, when one EXISTS, skips the insert/fold entirely (the existing row
is left untouched); then it deletes ALL catalog rows at the OLD key. -/
def updateItemWeightAndSync_sq (db : Db) (id userId : Nat) (weight : Int) :
    Option Item × Db :=
  match getItemById db id userId with
  | none => (none, db)
  | some it =>
    if it.weight = weight then (some it, db)
    else
      let db1 := weightItemsStmt db userId it.name it.category it.ty it.weight weight
      let db2 : Db :=
        match findGearByKey db1 userId it.name it.category it.ty weight with
        | some _ => db1
        | none =>
          { db1 with
            gears := db1.gears ++
              [⟨db1.nextGearId, userId, it.name, it.description, it.category,
                it.ty, weight, it.qty⟩],
            nextGearId := db1.nextGearId + 1 }
      let db3 := { db2 with gears := db2.gears.filter (fun g =>
        ¬(g.user_id = userId ∧ g.name = it.name ∧ g.category = it.category ∧
          g.ty = it.ty ∧ g.weight = it.weight)) }
      (getItemById db3 id userId, db3)

/-! ## Catalog upsert (`upsertGear`) -/

/-- `upsertGear(userId, gear)`, postgres backend:
`INSERT INTO gear_library ... ON CONFLICT (natural key) DO UPDATE SET
default_qty = EXCLUDED.default_qty, description = EXCLUDED.description
RETURNING <row>` — on conflict the default quantity is OVERWRITTEN with
the candidate's, not maxed. -/
def upsertGear_pg (db : Db) (userId : Nat) (c : GearCandidate) : GearRow × Db :=
  match findGearByKey db userId c.name c.category c.ty c.weight with
  | some g =>
    ({ g with default_qty := c.defaultQty, description := c.description },
     { db with gears := db.gears.map (fun r =>
         if r.id = g.id
         then { r with default_qty := c.defaultQty, description := c.description }
         else r) })
  | none =>
    (⟨db.nextGearId, userId, c.name, c.description, c.category, c.ty, c.weight, c.defaultQty⟩,
     { db with
       gears := db.gears ++
         [⟨db.nextGearId, userId, c.name, c.description, c.category, c.ty, c.weight,
           c.defaultQty⟩],
       nextGearId := db.nextGearId + 1 })

/-- `upsertGear(userId, gear)`, sqlite backend: the same
`INSERT ... ON CONFLICT DO UPDATE` write, followed by a re-select of the
row by natural key (`|| null` on the select result). -/
def upsertGear_sq (db : Db) (userId : Nat) (c : GearCandidate) :
    Option GearRow × Db :=
  let db' :=
    match findGearByKey db userId c.name c.category c.ty c.weight with
    | some g =>
      { db with gears := db.gears.map (fun r =>
          if r.id = g.id
          then { r with default_qty := c.defaultQty, description := c.description }
          else r) }
    | none =>
      { db with
        gears := db.gears ++
          [⟨db.nextGearId, userId, c.name, c.description, c.category, c.ty,
            c.weight, c.defaultQty⟩],
        nextGearId := db.nextGearId + 1 }
  (findGearByKey db' userId c.name c.category c.ty c.weight, db')

/-! ## Presence projection (`listGears`) -/

/-- One row of the `listGears` result: the catalog row plus the derived
`inCurrentList` boolean. -/
structure GearView where
  id : Nat
  name : String
  description : String
  category : String
  ty : String
  weight : Int
  defaultQty : Int
  inCurrentList : Bool
deriving Repr, DecidableEq

/-- The `EXISTS (SELECT 1 FROM items i WHERE i.user_id = g.user_id AND
i.list_id = ? AND <key columns equal>)` subquery. -/
def gearPresent (db : Db) (listId : Nat) (g : GearRow) : Bool :=
  db.items.any (fun i =>
    i.user_id == g.user_id && i.list_id == some listId &&
    i.name == g.name && i.category == g.category &&
    i.ty == g.ty && i.weight == g.weight)

/-- `listGears(userId, listId)`, postgres backend: every catalog row of
the user with its presence bit, `ORDER BY name ASC` (a stable
insertion sort on the name column). -/
def listGears_pg (db : Db) (userId listId : Nat) : List GearView :=
  ((db.gears.filter (fun g => g.user_id == userId)).map (fun g =>
      GearView.mk g.id g.name g.description g.category g.ty g.weight
        g.default_qty (gearPresent db listId g))).insertionSort
    (fun a b => a.name ≤ b.name)

/-- `listGears(userId, listId)`, sqlite backend: the same query and the
same `Boolean(...)` presence projection. -/
def listGears_sq (db : Db) (userId listId : Nat) : List GearView :=
  ((db.gears.filter (fun g => g.user_id == userId)).map (fun g =>
      GearView.mk g.id g.name g.description g.category g.ty g.weight
        g.default_qty (gearPresent db listId g))).insertionSort
    (fun a b => a.name ≤ b.name)

/-! ## Item edit pipeline: the `PATCH /api/items/:id` handler

The request body's four optional fields, applied in the source's fixed
order: `type`, then `weight`, then `category`, then `description`.
String fields carry the raw request value; `weight` carries the value
of `Math.round(Number(req.body.weight))`, which for a finite JS number
is an integer (the handler then rejects non-positive values). -/

/-- The four optional fields of a `PATCH /api/items/:id` body. -/
structure PatchBody where
  ty : Option String
  weight : Option Int
  category : Option String
  description : Option String
deriving Repr, DecidableEq

/-- Outcome of the PATCH handler: 400, 404, or the final item payload. -/
inductive PatchOut where
  | badRequest
  | notFound
  | ok (it : Item)
deriving Repr, DecidableEq

/-- `["base", "worn", "consumable"].includes(type)`. -/
def isValidType (t : String) : Bool :=
  ["base", "worn", "consumable"].contains t

/-- JavaScript `String.prototype.trim()`: strip leading and trailing
whitespace.  (Implemented by structural recursion over the character
list so that it evaluates inside the kernel; `String.trim` itself is
defined by well-founded recursion and does not reduce.) -/
def jsTrim (s : String) : String :=
  ⟨((s.data.dropWhile Char.isWhitespace).reverse.dropWhile Char.isWhitespace).reverse⟩

/-- JavaScript `String.prototype.slice(0, n)` (character-counting
approximation of the UTF-16 code-unit semantics). -/
def jsSlice (n : Nat) (s : String) : String := ⟨s.data.take n⟩

/-- The handler's final `if (!item) return 404; return res.json({item})`. -/
def patchFinish (cur : Option Item) (db : Db) : PatchOut × Db :=
  match cur with
  | none => (.notFound, db)
  | some it => (.ok it, db)

/-- The `hasDescription` step: trim, truncate to 80, fan out through the
description synchronizer (`dsync` is the backend's
`updateItemDescriptionAndSync`). -/
def patchDescriptionStep (dsync : Db → Nat → Nat → String → Option Item × Db)
    (db : Db) (id userId : Nat) (b : PatchBody) (cur : Option Item) :
    PatchOut × Db :=
  match b.description with
  | none => patchFinish cur db
  | some dRaw =>
    let (r, db') := dsync db id userId (jsSlice 80 (jsTrim dRaw))
    patchFinish r db'

/-- The `hasCategory` step: trim, reject empty, truncate to 20, direct
single-row update (no fan-out). -/
def patchCategoryStep (dsync : Db → Nat → Nat → String → Option Item × Db)
    (db : Db) (id userId : Nat) (b : PatchBody) (cur : Option Item) :
    PatchOut × Db :=
  match b.category with
  | none => patchDescriptionStep dsync db id userId b cur
  | some cRaw =>
    let c := jsTrim cRaw
    if c = "" then (.badRequest, db)
    else
      let (r, db') := updateItemCategory db id userId (jsSlice 20 c)
      patchDescriptionStep dsync db' id userId b r

/-- The `hasWeight` step: reject non-positive, else route through the
weight synchronizer (`wsync` is the backend's
`updateItemWeightAndSync`). -/
def patchWeightStep (wsync : Db → Nat → Nat → Int → Option Item × Db)
    (dsync : Db → Nat → Nat → String → Option Item × Db)
    (db : Db) (id userId : Nat) (b : PatchBody) (cur : Option Item) :
    PatchOut × Db :=
  match b.weight with
  | none => patchCategoryStep dsync db id userId b cur
  | some w =>
    if w ≤ 0 then (.badRequest, db)
    else
      let (r, db') := wsync db id userId w
      patchCategoryStep dsync db' id userId b r

/-- The `PATCH /api/items/:id` handler over a given backend: reject an
empty body, look up the item, then apply the present fields in the fixed
order type → weight → category → description. -/
def patchItemWith (wsync : Db → Nat → Nat → Int → Option Item × Db)
    (dsync : Db → Nat → Nat → String → Option Item × Db)
    (db : Db) (id userId : Nat) (b : PatchBody) : PatchOut × Db :=
  if b.ty = none ∧ b.weight = none ∧ b.category = none ∧ b.description = none then
    (.badRequest, db)
  else
    match getItemById db id userId with
    | none => (.notFound, db)
    | some it0 =>
      match b.ty with
      | none => patchWeightStep wsync dsync db id userId b (some it0)
      | some tRaw =>
        let t := (jsTrim tRaw)
        if ¬ isValidType t then (.badRequest, db)
        else
          match updateItemType db id userId t with
          | (none, db1) => (.notFound, db1)
          | (some it1, db1) => patchWeightStep wsync dsync db1 id userId b (some it1)

/-- The PATCH handler wired to the postgres backend. -/
def patchItem_pg (db : Db) (id userId : Nat) (b : PatchBody) : PatchOut × Db :=
  patchItemWith updateItemWeightAndSync_pg updateItemDescriptionAndSync_pg db id userId b

/-- The PATCH handler wired to the sqlite backend. -/
def patchItem_sq (db : Db) (id userId : Nat) (b : PatchBody) : PatchOut × Db :=
  patchItemWith updateItemWeightAndSync_sq updateItemDescriptionAndSync_sq db id userId b

/-! ## Generic helper lemmas -/

/-- `find?` commutes with a map that does not disturb the predicate. -/
theorem find?_map_self {α : Type} (f : α → α) (p : α → Bool) (l : List α)
    (hp : ∀ a, p (f a) = p a) :
    (l.map f).find? p = (l.find? p).map f := by
  induction l with
  | nil => rfl
  | cons a t ih =>
    by_cases h : p a = true
    · rw [List.map_cons, List.find?_cons_of_pos _ ((hp a).trans h),
        List.find?_cons_of_pos _ h]
      rfl
    · rw [List.map_cons, List.find?_cons_of_neg _ (by simpa [hp a] using h),
        List.find?_cons_of_neg _ h, ih]

/-- `getItemById` through a row-preserving map: if every updated row
keeps its id and user id, the lookup finds the updated row. -/
theorem getItemById_rowUpdate (db db' : Db) (id u : Nat) (f : Item → Item)
    (hf : ∀ i, (f i).id = i.id ∧ (f i).user_id = i.user_id)
    (h' : db'.items = db.items.map f) :
    getItemById db' id u = (getItemById db id u).map f := by
  unfold getItemById
  rw [h']
  exact find?_map_self f _ db.items (fun i => by simp [(hf i).1, (hf i).2])

/-- An element returned by `getItemById db id userId` carries that id
and user id. -/
theorem getItemById_fields {db : Db} {id userId : Nat} {it : Item}
    (h : getItemById db id userId = some it) :
    it.id = id ∧ it.user_id = userId := by
  have := List.find?_some h
  simpa using this

/-- `getItemById` only reads the `items` table, through the fixed
id/user predicate. -/
theorem getItemById_mapItems (db : Db) (f : Item → Item) (id userId : Nat)
    (hid : ∀ i, (f i).id = i.id) (hu : ∀ i, (f i).user_id = i.user_id)
    (rest : List Item → Db) (hrest : ∀ l, (rest l).items = l) :
    getItemById (rest (db.items.map f)) id userId =
      (getItemById db id userId).map f := by
  unfold getItemById
  rw [hrest]
  exact find?_map_self f _ db.items (fun i => by simp [hid i, hu i])

/-! ## Weight-sync helper lemmas (shared by several theorems) -/

/-- Both catalog-merge steps of the postgres weight sync leave the
`items` table as the fan-out statement left it. -/
theorem weightSync_pg_items (db : Db) (id userId : Nat) (w : Int) (it : Item)
    (hit : getItemById db id userId = some it) (hne : ¬ it.weight = w) :
    (updateItemWeightAndSync_pg db id userId w).2.items =
      (weightItemsStmt db userId it.name it.category it.ty it.weight w).items := by
  unfold updateItemWeightAndSync_pg
  rw [hit]
  simp only [if_neg hne]
  cases hg : findGearByKey (weightItemsStmt db userId it.name it.category it.ty it.weight w)
      userId it.name it.category it.ty w with
  | none => simp [hg]
  | some g => simp [hg]

/-- The postgres weight sync returns the freshly-read edited row. -/
theorem weightSync_pg_fst (db : Db) (id userId : Nat) (w : Int) (it : Item)
    (hit : getItemById db id userId = some it) (hne : ¬ it.weight = w) :
    (updateItemWeightAndSync_pg db id userId w).1 =
      getItemById (updateItemWeightAndSync_pg db id userId w).2 id userId := by
  unfold updateItemWeightAndSync_pg
  rw [hit]
  simp only [if_neg hne]

/-- Sqlite analogue of `weightSync_pg_items`. -/
theorem weightSync_sq_items (db : Db) (id userId : Nat) (w : Int) (it : Item)
    (hit : getItemById db id userId = some it) (hne : ¬ it.weight = w) :
    (updateItemWeightAndSync_sq db id userId w).2.items =
      (weightItemsStmt db userId it.name it.category it.ty it.weight w).items := by
  unfold updateItemWeightAndSync_sq
  rw [hit]
  simp only [if_neg hne]
  cases hg : findGearByKey (weightItemsStmt db userId it.name it.category it.ty it.weight w)
      userId it.name it.category it.ty w with
  | none => simp [hg]
  | some g => simp [hg]

/-- Sqlite analogue of `weightSync_pg_fst`. -/
theorem weightSync_sq_fst (db : Db) (id userId : Nat) (w : Int) (it : Item)
    (hit : getItemById db id userId = some it) (hne : ¬ it.weight = w) :
    (updateItemWeightAndSync_sq db id userId w).1 =
      getItemById (updateItemWeightAndSync_sq db id userId w).2 id userId := by
  unfold updateItemWeightAndSync_sq
  rw [hit]
  simp only [if_neg hne]

/-- The two backends' description syncs are the same function. -/
theorem descSync_backends_eq (db : Db) (id userId : Nat) (d : String) :
    updateItemDescriptionAndSync_sq db id userId d =
      updateItemDescriptionAndSync_pg db id userId d := rfl

/-! ## Example databases used by witnesses and counterexamples -/

/-- One user with two lists, each containing a `Tent` item sharing the
natural key `("Tent", "Shelter", "base", 1200)`, plus the matching
catalog row. -/
def dbTwoLists : Db :=
  { lists := [⟨1, 1, "A"⟩, ⟨2, 1, "B"⟩],
    items := [⟨1, 1, some 1, "Tent", "", "Shelter", "base", 1200, 1⟩,
              ⟨2, 1, some 2, "Tent", "", "Shelter", "base", 1200, 1⟩],
    gears := [⟨1, 1, "Tent", "", "Shelter", "base", 1200, 1⟩],
    nextListId := 3, nextItemId := 3, nextGearId := 2 }

/-- The first `Tent` item of `dbTwoLists`. -/
def itemTentA : Item := ⟨1, 1, some 1, "Tent", "", "Shelter", "base", 1200, 1⟩

/-- One user with a `Headlamp` item filed under two different categories
in two different lists (same `(name, type, weight)` triple), plus one
catalog row for the triple. -/
def dbHeadlamp : Db :=
  { lists := [⟨1, 1, "A"⟩, ⟨2, 1, "B"⟩],
    items := [⟨1, 1, some 1, "Headlamp", "", "Electronics", "base", 95, 1⟩,
              ⟨2, 1, some 2, "Headlamp", "", "Lighting", "base", 95, 1⟩],
    gears := [⟨1, 1, "Headlamp", "", "Electronics", "base", 95, 1⟩],
    nextListId := 3, nextItemId := 3, nextGearId := 2 }

/-- The first `Headlamp` item of `dbHeadlamp`. -/
def itemHeadlamp : Item := ⟨1, 1, some 1, "Headlamp", "", "Electronics", "base", 95, 1⟩

/-! ## C1 — weight edit fans out to every matching item of the user -/

/-- C1: a weight edit to a new positive weight different from the
current one sets the weight of every item of the user whose
`(name, category, type, weight)` tuple equals the edited item's
pre-edit key — across all of the user's lists — to the new weight, and
returns the freshly-read edited item row; in both backends. -/
theorem weightEdit_updates_all_matching_items (db : Db) (id userId : Nat)
    (w : Int) (it : Item) (hit : getItemById db id userId = some it)
    (_hpos : 0 < w) (hne : ¬ it.weight = w) :
    ((updateItemWeightAndSync_pg db id userId w).2.items =
        db.items.map (fun i =>
          if i.user_id = userId ∧ i.name = it.name ∧ i.category = it.category ∧
             i.ty = it.ty ∧ i.weight = it.weight
          then { i with weight := w } else i) ∧
      (updateItemWeightAndSync_pg db id userId w).1 =
        getItemById (updateItemWeightAndSync_pg db id userId w).2 id userId) ∧
    ((updateItemWeightAndSync_sq db id userId w).2.items =
        db.items.map (fun i =>
          if i.user_id = userId ∧ i.name = it.name ∧ i.category = it.category ∧
             i.ty = it.ty ∧ i.weight = it.weight
          then { i with weight := w } else i) ∧
      (updateItemWeightAndSync_sq db id userId w).1 =
        getItemById (updateItemWeightAndSync_sq db id userId w).2 id userId) :=
  ⟨⟨weightSync_pg_items db id userId w it hit hne,
    weightSync_pg_fst db id userId w it hit hne⟩,
   ⟨weightSync_sq_items db id userId w it hit hne,
    weightSync_sq_fst db id userId w it hit hne⟩⟩

/-- Witness for C1 on the two-list `Tent` database, editing the weight
from 1200 to 1100. -/
theorem weightEdit_updates_all_matching_items_witness :
    (getItemById dbTwoLists 1 1 = some itemTentA ∧ (0 : Int) < 1100 ∧
      ¬ itemTentA.weight = 1100) ∧
    (((updateItemWeightAndSync_pg dbTwoLists 1 1 1100).2.items =
        dbTwoLists.items.map (fun i =>
          if i.user_id = 1 ∧ i.name = itemTentA.name ∧ i.category = itemTentA.category ∧
             i.ty = itemTentA.ty ∧ i.weight = itemTentA.weight
          then { i with weight := 1100 } else i) ∧
      (updateItemWeightAndSync_pg dbTwoLists 1 1 1100).1 =
        getItemById (updateItemWeightAndSync_pg dbTwoLists 1 1 1100).2 1 1) ∧
    ((updateItemWeightAndSync_sq dbTwoLists 1 1 1100).2.items =
        dbTwoLists.items.map (fun i =>
          if i.user_id = 1 ∧ i.name = itemTentA.name ∧ i.category = itemTentA.category ∧
             i.ty = itemTentA.ty ∧ i.weight = itemTentA.weight
          then { i with weight := 1100 } else i) ∧
      (updateItemWeightAndSync_sq dbTwoLists 1 1 1100).1 =
        getItemById (updateItemWeightAndSync_sq dbTwoLists 1 1 1100).2 1 1)) :=
  ⟨⟨by decide, by decide, by decide⟩,
   weightEdit_updates_all_matching_items dbTwoLists 1 1 1100 itemTentA
     (by decide) (by decide) (by decide)⟩

/-! ## C7 — description edit fans out on `(name, type, weight)`,
category deliberately excluded -/

/-- C7: a description edit updates every item of the user sharing the
`(name, type, weight)` triple — category excluded, so siblings in other
categories and other lists are updated too — and every catalog row
sharing the triple; the sqlite backend computes exactly the same
function. -/
theorem descEdit_fans_out_ignoring_category (db : Db) (id userId : Nat)
    (d : String) (it : Item) (hit : getItemById db id userId = some it) :
    ((updateItemDescriptionAndSync_pg db id userId d).2.items =
        db.items.map (fun i =>
          if i.user_id = userId ∧ i.name = it.name ∧ i.ty = it.ty ∧ i.weight = it.weight
          then { i with description := d } else i)) ∧
    ((updateItemDescriptionAndSync_pg db id userId d).2.gears =
        db.gears.map (fun g =>
          if g.user_id = userId ∧ g.name = it.name ∧ g.ty = it.ty ∧ g.weight = it.weight
          then { g with description := d } else g)) ∧
    updateItemDescriptionAndSync_sq db id userId d =
      updateItemDescriptionAndSync_pg db id userId d := by
  refine ⟨?_, ?_, rfl⟩ <;>
  · unfold updateItemDescriptionAndSync_pg
    rw [hit]
    rfl

/-- Witness for C7: the `Headlamp` present in two categories across two
lists receives the new description on both. -/
theorem descEdit_fans_out_ignoring_category_witness :
    getItemById dbHeadlamp 1 1 = some itemHeadlamp ∧
    (((updateItemDescriptionAndSync_pg dbHeadlamp 1 1 "usb").2.items =
        dbHeadlamp.items.map (fun i =>
          if i.user_id = 1 ∧ i.name = itemHeadlamp.name ∧ i.ty = itemHeadlamp.ty ∧
             i.weight = itemHeadlamp.weight
          then { i with description := "usb" } else i)) ∧
    ((updateItemDescriptionAndSync_pg dbHeadlamp 1 1 "usb").2.gears =
        dbHeadlamp.gears.map (fun g =>
          if g.user_id = 1 ∧ g.name = itemHeadlamp.name ∧ g.ty = itemHeadlamp.ty ∧
             g.weight = itemHeadlamp.weight
          then { g with description := "usb" } else g)) ∧
    updateItemDescriptionAndSync_sq dbHeadlamp 1 1 "usb" =
      updateItemDescriptionAndSync_pg dbHeadlamp 1 1 "usb") :=
  ⟨by decide,
   descEdit_fans_out_ignoring_category dbHeadlamp 1 1 "usb" itemHeadlamp (by decide)⟩

/-! ## C2 — catalog merge during a weight edit -/

/-- One user, one list; the edited `Tent` item has qty 1 while the
pre-edit catalog row for its key has default quantity 5 and a nonempty
description; no catalog row exists for the new key. -/
def dbQty5 : Db :=
  { lists := [⟨1, 1, "A"⟩],
    items := [⟨1, 1, some 1, "Tent", "", "Shelter", "base", 1200, 1⟩],
    gears := [⟨1, 1, "Tent", "old", "Shelter", "base", 1200, 5⟩],
    nextListId := 2, nextItemId := 2, nextGearId := 2 }

/-- Counterexample to C2: with no catalog entry at the new key, the
claim says the pre-edit catalog row's weight is updated in place with
its default quantity (5) and description ("old") preserved; the code
instead inserts a fresh row carrying the edited item's qty (1) and
description ("") and deletes the pre-edit row. -/
theorem catalogMerge_not_in_place :
    findGearByKey dbQty5 1 "Tent" "Shelter" "base" 1100 = none ∧
    (updateItemWeightAndSync_pg dbQty5 1 1 1100).2.gears =
      [⟨2, 1, "Tent", "", "Shelter", "base", 1100, 1⟩] ∧
    ¬ (updateItemWeightAndSync_pg dbQty5 1 1 1100).2.gears =
        [⟨1, 1, "Tent", "old", "Shelter", "base", 1100, 5⟩] ∧
    (updateItemWeightAndSync_sq dbQty5 1 1 1100).2.gears =
      [⟨2, 1, "Tent", "", "Shelter", "base", 1100, 1⟩] := by decide

/-- Postgres weight-merge with no catalog row at the new key: the
catalog ends as the old rows minus the pre-edit key plus a fresh row
built from the edited item. -/
theorem weightMergeGears_pg_none (db : Db) (id userId : Nat) (w : Int) (it : Item)
    (hit : getItemById db id userId = some it) (hne : ¬ it.weight = w)
    (hFresh : ∀ g ∈ db.gears, g.id < db.nextGearId)
    (hg : findGearByKey db userId it.name it.category it.ty w = none) :
    (updateItemWeightAndSync_pg db id userId w).2.gears =
      db.gears.filter (fun r =>
        ¬(r.user_id = userId ∧ r.name = it.name ∧ r.category = it.category ∧
          r.ty = it.ty ∧ r.weight = it.weight)) ++
      [⟨db.nextGearId, userId, it.name, it.description, it.category, it.ty, w, it.qty⟩] := by
  have hgears1 : (weightItemsStmt db userId it.name it.category it.ty it.weight w).gears
      = db.gears := rfl
  have hnext : (weightItemsStmt db userId it.name it.category it.ty it.weight w).nextGearId
      = db.nextGearId := rfl
  have hwne : ¬ (w = it.weight) := fun h => hne h.symm
  unfold updateItemWeightAndSync_pg
  rw [hit]
  simp only [if_neg hne]
  rw [show findGearByKey (weightItemsStmt db userId it.name it.category it.ty it.weight w)
      userId it.name it.category it.ty w = none from hg]
  simp only [hgears1, hnext, List.filter_append]
  congr 1
  · apply List.filter_congr
    intro r hr
    have hrid : r.id ≠ db.nextGearId := Nat.ne_of_lt (hFresh r hr)
    rw [decide_eq_decide]
    tauto
  · simp [hwne]

/-- Sqlite weight-merge with no catalog row at the new key: the same
final catalog as postgres. -/
theorem weightMergeGears_sq_none (db : Db) (id userId : Nat) (w : Int) (it : Item)
    (hit : getItemById db id userId = some it) (hne : ¬ it.weight = w)
    (hg : findGearByKey db userId it.name it.category it.ty w = none) :
    (updateItemWeightAndSync_sq db id userId w).2.gears =
      db.gears.filter (fun r =>
        ¬(r.user_id = userId ∧ r.name = it.name ∧ r.category = it.category ∧
          r.ty = it.ty ∧ r.weight = it.weight)) ++
      [⟨db.nextGearId, userId, it.name, it.description, it.category, it.ty, w, it.qty⟩] := by
  have hgears1 : (weightItemsStmt db userId it.name it.category it.ty it.weight w).gears
      = db.gears := rfl
  have hnext : (weightItemsStmt db userId it.name it.category it.ty it.weight w).nextGearId
      = db.nextGearId := rfl
  have hwne : ¬ (w = it.weight) := fun h => hne h.symm
  unfold updateItemWeightAndSync_sq
  rw [hit]
  simp only [if_neg hne]
  rw [show findGearByKey (weightItemsStmt db userId it.name it.category it.ty it.weight w)
      userId it.name it.category it.ty w = none from hg]
  simp only [hgears1, hnext, List.filter_append]
  congr 1
  simp [hwne]

/-- C2 as amended: during a weight edit with pre-edit key
`(it.name, it.category, it.ty, it.weight)` and new key with weight `w`:
if a catalog row `g` exists for the new key, postgres folds the EDITED
ITEM's attributes into it (`default_qty := max g.default_qty it.qty`,
`description := it.description`) and deletes the rows at the pre-edit
key, while sqlite leaves `g` untouched and deletes the pre-edit rows;
if no row exists for the new key, both backends append a fresh catalog
row built from the edited item (its description and qty — the pre-edit
row's default quantity and description are not carried over) and delete
the rows at the pre-edit key. -/
theorem catalogMerge_amended (db : Db) (id userId : Nat) (w : Int) (it : Item)
    (hit : getItemById db id userId = some it) (hne : ¬ it.weight = w)
    (hNodup : (db.gears.map (fun g => g.id)).Nodup)
    (hFresh : ∀ g ∈ db.gears, g.id < db.nextGearId) :
    (∀ g, findGearByKey db userId it.name it.category it.ty w = some g →
      (updateItemWeightAndSync_pg db id userId w).2.gears =
        (db.gears.map (fun r =>
          if r.id = g.id
          then { r with default_qty := max r.default_qty it.qty,
                        description := it.description }
          else r)).filter (fun r =>
            ¬(r.user_id = userId ∧ r.name = it.name ∧ r.category = it.category ∧
              r.ty = it.ty ∧ r.weight = it.weight))) ∧
    (findGearByKey db userId it.name it.category it.ty w = none →
      (updateItemWeightAndSync_pg db id userId w).2.gears =
        db.gears.filter (fun r =>
            ¬(r.user_id = userId ∧ r.name = it.name ∧ r.category = it.category ∧
              r.ty = it.ty ∧ r.weight = it.weight)) ++
          [⟨db.nextGearId, userId, it.name, it.description, it.category, it.ty, w, it.qty⟩]) ∧
    (∀ g, findGearByKey db userId it.name it.category it.ty w = some g →
      (updateItemWeightAndSync_sq db id userId w).2.gears =
        db.gears.filter (fun r =>
            ¬(r.user_id = userId ∧ r.name = it.name ∧ r.category = it.category ∧
              r.ty = it.ty ∧ r.weight = it.weight))) ∧
    (findGearByKey db userId it.name it.category it.ty w = none →
      (updateItemWeightAndSync_sq db id userId w).2.gears =
        db.gears.filter (fun r =>
            ¬(r.user_id = userId ∧ r.name = it.name ∧ r.category = it.category ∧
              r.ty = it.ty ∧ r.weight = it.weight)) ++
          [⟨db.nextGearId, userId, it.name, it.description, it.category, it.ty, w, it.qty⟩]) := by
  have hgears1 : (weightItemsStmt db userId it.name it.category it.ty it.weight w).gears
      = db.gears := rfl
  have hnext : (weightItemsStmt db userId it.name it.category it.ty it.weight w).nextGearId
      = db.nextGearId := rfl
  have hwne : ¬ (w = it.weight) := fun h => hne h.symm
  refine ⟨?_, ?_, ?_, ?_⟩
  · -- postgres, a row exists at the new key
    intro g hg
    have hgmem : g ∈ db.gears := List.mem_of_find?_eq_some hg
    have hgw : g.weight = w := by
      have h := List.find?_some hg
      simp [gearKeyP] at h
      tauto
    unfold updateItemWeightAndSync_pg
    rw [hit]
    simp only [if_neg hne]
    rw [show findGearByKey (weightItemsStmt db userId it.name it.category it.ty it.weight w)
        userId it.name it.category it.ty w = some g from hg]
    simp only [hgears1]
    apply List.filter_congr
    intro r' hr'
    rcases List.mem_map.mp hr' with ⟨r, hrmem, hrr'⟩
    rw [decide_eq_decide]
    by_cases hid : r.id = g.id
    · have hrg : r = g := List.inj_on_of_nodup_map hNodup hrmem hgmem hid
      subst hrg
      rw [if_pos rfl] at hrr'
      have hw' : ¬ (r'.weight = it.weight) := by
        intro h
        rw [← hrr'] at h
        simp at h
        rw [hgw] at h
        exact hwne h
      tauto
    · rw [if_neg hid] at hrr'
      subst hrr'
      tauto
  · -- postgres, no row at the new key
    intro hg
    exact weightMergeGears_pg_none db id userId w it hit hne hFresh hg
  · -- sqlite, a row exists at the new key
    intro g hg
    unfold updateItemWeightAndSync_sq
    rw [hit]
    simp only [if_neg hne]
    rw [show findGearByKey (weightItemsStmt db userId it.name it.category it.ty it.weight w)
        userId it.name it.category it.ty w = some g from hg]
    rfl
  · -- sqlite, no row at the new key
    intro hg
    exact weightMergeGears_sq_none db id userId w it hit hne hg

/-- Witness for the amended C2 on `dbQty5` (the no-row-at-new-key case;
the exists-a-row implications hold vacuously there). -/
theorem catalogMerge_amended_witness :
    (getItemById dbQty5 1 1 = some itemTentA ∧ ¬ itemTentA.weight = (1100 : Int) ∧
      (dbQty5.gears.map (fun g => g.id)).Nodup ∧
      ∀ g ∈ dbQty5.gears, g.id < dbQty5.nextGearId) ∧
    (findGearByKey dbQty5 1 itemTentA.name itemTentA.category itemTentA.ty 1100 = none →
      (updateItemWeightAndSync_pg dbQty5 1 1 1100).2.gears =
        dbQty5.gears.filter (fun r =>
            ¬(r.user_id = 1 ∧ r.name = itemTentA.name ∧ r.category = itemTentA.category ∧
              r.ty = itemTentA.ty ∧ r.weight = itemTentA.weight)) ++
          [⟨dbQty5.nextGearId, 1, itemTentA.name, itemTentA.description,
            itemTentA.category, itemTentA.ty, 1100, itemTentA.qty⟩]) :=
  ⟨⟨by decide, by decide, by decide, by decide⟩,
   (catalogMerge_amended dbQty5 1 1 1100 itemTentA (by decide) (by decide)
     (by decide) (by decide)).2.1⟩

/-! ## C3 — catalog upsert -/

/-- After updating, by id, the row that `find?` located — with an
update that does not disturb the predicate — `find?` locates the
updated row. -/
theorem find?_map_update_at {α : Type} (p : α → Bool) (idf : α → Nat) (upd : α → α)
    (l : List α) (g : α) (hfind : l.find? p = some g)
    (hp : ∀ x, p (upd x) = p x) :
    (l.map (fun x => if idf x = idf g then upd x else x)).find? p = some (upd g) := by
  induction l with
  | nil => simp at hfind
  | cons a t ih =>
    by_cases ha : p a = true
    · rw [List.find?_cons_of_pos _ ha] at hfind
      injection hfind with h
      subst h
      rw [List.map_cons, if_pos rfl, List.find?_cons_of_pos _ ((hp a).trans ha)]
    · rw [List.find?_cons_of_neg _ ha] at hfind
      rw [List.map_cons]
      by_cases hid : idf a = idf g
      · rw [if_pos hid, List.find?_cons_of_neg _ (by rw [hp]; exact ha)]
        exact ih hfind
      · rw [if_neg hid, List.find?_cons_of_neg _ ha]
        exact ih hfind

/-- A user with an existing `Tent` catalog row of default quantity 5. -/
def dbGear5 : Db :=
  { lists := [⟨1, 1, "A"⟩], items := [],
    gears := [⟨1, 1, "Tent", "", "Shelter", "base", 1200, 5⟩],
    nextListId := 2, nextItemId := 1, nextGearId := 2 }

/-- The upsert candidate: same natural key, quantity 3. -/
def candTent3 : GearCandidate := ⟨"Tent", "new", "Shelter", "base", 1200, 3⟩

/-- Counterexample to C3: the claim says the existing row's default
quantity becomes `max(existing, candidate) = max 5 3 = 5`; both
backends instead overwrite it with the candidate's quantity 3. -/
theorem upsertGear_not_max :
    (upsertGear_pg dbGear5 1 candTent3).1.default_qty = 3 ∧
    ¬ (upsertGear_pg dbGear5 1 candTent3).1.default_qty = 5 ∧
    (upsertGear_sq dbGear5 1 candTent3).1 =
      some ⟨1, 1, "Tent", "new", "Shelter", "base", 1200, 3⟩ := by decide

/-- The sqlite catalog upsert returns the same row (wrapped in `some`
by its re-select) and the same state as the postgres one. -/
theorem upsertGear_sq_eq_pg (db : Db) (userId : Nat) (c : GearCandidate) :
    upsertGear_sq db userId c =
      (some (upsertGear_pg db userId c).1, (upsertGear_pg db userId c).2) := by
  have hkeySelf : ∀ (d : String) (q : Int) (n : Nat),
      gearKeyP userId c.name c.category c.ty c.weight
        ⟨n, userId, c.name, d, c.category, c.ty, c.weight, q⟩ = true := by
    intro d q n
    simp [gearKeyP]
  have hpUpd : ∀ x : GearRow,
      gearKeyP userId c.name c.category c.ty c.weight
          { x with default_qty := c.defaultQty, description := c.description } =
        gearKeyP userId c.name c.category c.ty c.weight x := by
    intro x
    simp [gearKeyP]
  cases hg : findGearByKey db userId c.name c.category c.ty c.weight with
  | none =>
    unfold upsertGear_sq upsertGear_pg
    rw [hg]
    simp only [Prod.mk.injEq]
    refine ⟨?_, by trivial⟩
    unfold findGearByKey at hg ⊢
    rw [List.find?_append, hg]
    simp [hkeySelf]
  | some g =>
    unfold upsertGear_sq upsertGear_pg
    rw [hg]
    simp only [Prod.mk.injEq]
    refine ⟨?_, by trivial⟩
    unfold findGearByKey at hg ⊢
    exact find?_map_update_at _ (fun r => r.id)
      (fun r => { r with default_qty := c.defaultQty, description := c.description })
      db.gears g hg hpUpd

/-- C3 as amended: the upsert inserts a fresh catalog row when no row
exists for the candidate's natural key; when one exists it OVERWRITES
that row's default quantity with the candidate's quantity (not the max
of the two) and overwrites its description; repeating the same call
with an unchanged candidate is idempotent (same returned row, no
further state change); and the sqlite backend returns the same row and
state as the postgres one. -/
theorem upsertGear_overwrite_amended (db : Db) (userId : Nat) (c : GearCandidate)
    (hFresh : ∀ g ∈ db.gears, g.id < db.nextGearId) :
    (findGearByKey db userId c.name c.category c.ty c.weight = none →
      upsertGear_pg db userId c =
        (⟨db.nextGearId, userId, c.name, c.description, c.category, c.ty, c.weight,
            c.defaultQty⟩,
         { db with
           gears := db.gears ++
             [⟨db.nextGearId, userId, c.name, c.description, c.category, c.ty, c.weight,
               c.defaultQty⟩],
           nextGearId := db.nextGearId + 1 })) ∧
    (∀ g, findGearByKey db userId c.name c.category c.ty c.weight = some g →
      upsertGear_pg db userId c =
        ({ g with default_qty := c.defaultQty, description := c.description },
         { db with gears := db.gears.map (fun r =>
             if r.id = g.id
             then { r with default_qty := c.defaultQty, description := c.description }
             else r) })) ∧
    upsertGear_pg (upsertGear_pg db userId c).2 userId c = upsertGear_pg db userId c ∧
    upsertGear_sq db userId c =
      (some (upsertGear_pg db userId c).1, (upsertGear_pg db userId c).2) := by
  have hkeySelf : ∀ (d : String) (q : Int) (n : Nat),
      gearKeyP userId c.name c.category c.ty c.weight
        ⟨n, userId, c.name, d, c.category, c.ty, c.weight, q⟩ = true := by
    intro d q n
    simp [gearKeyP]
  have hpUpd : ∀ x : GearRow,
      gearKeyP userId c.name c.category c.ty c.weight
          { x with default_qty := c.defaultQty, description := c.description } =
        gearKeyP userId c.name c.category c.ty c.weight x := by
    intro x
    simp [gearKeyP]
  refine ⟨?_, ?_, ?_, ?_⟩
  · intro hg
    unfold upsertGear_pg
    rw [hg]
  · intro g hg
    unfold upsertGear_pg
    rw [hg]
  · -- idempotence
    cases hg : findGearByKey db userId c.name c.category c.ty c.weight with
    | none =>
      have h1 : upsertGear_pg db userId c =
          (⟨db.nextGearId, userId, c.name, c.description, c.category, c.ty, c.weight,
             c.defaultQty⟩,
           { db with
             gears := db.gears ++
               [⟨db.nextGearId, userId, c.name, c.description, c.category, c.ty, c.weight,
                 c.defaultQty⟩],
             nextGearId := db.nextGearId + 1 }) := by
        unfold upsertGear_pg
        rw [hg]
      rw [h1]
      have hfind2 : findGearByKey
          { db with
            gears := db.gears ++
              [⟨db.nextGearId, userId, c.name, c.description, c.category, c.ty, c.weight,
                c.defaultQty⟩],
            nextGearId := db.nextGearId + 1 } userId c.name c.category c.ty c.weight =
          some ⟨db.nextGearId, userId, c.name, c.description, c.category, c.ty, c.weight,
            c.defaultQty⟩ := by
        unfold findGearByKey at hg ⊢
        rw [List.find?_append, hg]
        simp [hkeySelf]
      unfold upsertGear_pg
      rw [hfind2]
      simp only [Prod.mk.injEq]
      refine ⟨by trivial, ?_⟩
      congr 1
      rw [List.map_append]
      congr 1
      · apply (List.map_congr_left _).trans (List.map_id _)
        intro r hr
        have : r.id ≠ db.nextGearId := Nat.ne_of_lt (hFresh r hr)
        simp [this]
      · simp
    | some g =>
      have h1 : upsertGear_pg db userId c =
          ({ g with default_qty := c.defaultQty, description := c.description },
           { db with gears := db.gears.map (fun r =>
               if r.id = g.id
               then { r with default_qty := c.defaultQty, description := c.description }
               else r) }) := by
        unfold upsertGear_pg
        rw [hg]
      rw [h1]
      have hfind2 : findGearByKey
          { db with gears := db.gears.map (fun r =>
              if r.id = g.id
              then { r with default_qty := c.defaultQty, description := c.description }
              else r) } userId c.name c.category c.ty c.weight =
          some { g with default_qty := c.defaultQty, description := c.description } := by
        unfold findGearByKey at hg ⊢
        exact find?_map_update_at _ (fun r => r.id)
          (fun r => { r with default_qty := c.defaultQty, description := c.description })
          db.gears g hg hpUpd
      unfold upsertGear_pg
      rw [hfind2]
      simp only [Prod.mk.injEq]
      refine ⟨by trivial, ?_⟩
      congr 1
      rw [List.map_map]
      apply List.map_congr_left
      intro r _
      by_cases hid : r.id = g.id <;> simp [hid]
  · -- sqlite returns the same row and state
    exact upsertGear_sq_eq_pg db userId c

/-- Witness for the amended C3 on `dbGear5` (the row-exists case; the
no-row implication holds vacuously). -/
theorem upsertGear_overwrite_amended_witness :
    (∀ g ∈ dbGear5.gears, g.id < dbGear5.nextGearId) ∧
    (upsertGear_pg (upsertGear_pg dbGear5 1 candTent3).2 1 candTent3 =
        upsertGear_pg dbGear5 1 candTent3 ∧
      upsertGear_sq dbGear5 1 candTent3 =
        (some (upsertGear_pg dbGear5 1 candTent3).1,
          (upsertGear_pg dbGear5 1 candTent3).2)) :=
  ⟨by decide,
   ⟨(upsertGear_overwrite_amended dbGear5 1 candTent3 (by decide)).2.2.1,
    (upsertGear_overwrite_amended dbGear5 1 candTent3 (by decide)).2.2.2⟩⟩

/-! ## C4 — list cloning -/

/-- One user, one list whose single item carries a nonempty
description (and the matching catalog row). -/
def dbCloneSrc : Db :=
  { lists := [⟨1, 1, "A"⟩],
    items := [⟨1, 1, some 1, "Tent", "waterproof", "Shelter", "base", 1200, 1⟩],
    gears := [⟨1, 1, "Tent", "waterproof", "Shelter", "base", 1200, 1⟩],
    nextListId := 2, nextItemId := 2, nextGearId := 2 }

/-- C4 failing input: the postgres clone's copied item has description
`""` although the source item's description is `"waterproof"` — the
copying `INSERT ... SELECT` omits the `description` column — while the
sqlite clone copies it; the source rows and the catalog are untouched
by both. -/
theorem clone_pg_drops_description :
    ((clonePackList_pg dbCloneSrc 1 1 "B").2.items.filter
        (fun i => i.list_id == some (clonePackList_pg dbCloneSrc 1 1 "B").1.id)).map
      (fun i => (i.name, i.description, i.category, i.ty, i.weight, i.qty)) =
      [("Tent", "", "Shelter", "base", (1200 : Int), (1 : Int))] ∧
    ((clonePackList_sq dbCloneSrc 1 1 "B").2.items.filter
        (fun i => i.list_id == some (clonePackList_sq dbCloneSrc 1 1 "B").1.id)).map
      (fun i => (i.name, i.description, i.category, i.ty, i.weight, i.qty)) =
      [("Tent", "waterproof", "Shelter", "base", (1200 : Int), (1 : Int))] ∧
    (clonePackList_pg dbCloneSrc 1 1 "B").2.items.filter
        (fun i => i.list_id == some 1) = dbCloneSrc.items ∧
    (clonePackList_pg dbCloneSrc 1 1 "B").2.gears = dbCloneSrc.gears :=
  ⟨rfl, rfl, by decide, by decide⟩

/-! ## C6 — description sync is not transactional -/

/-- One user, one item and one catalog row sharing the
`("Headlamp", "base", 95)` description-fan-out key, both with
description `"old"`. -/
def dbDescSync : Db :=
  { lists := [⟨1, 1, "A"⟩],
    items := [⟨1, 1, some 1, "Headlamp", "old", "Electronics", "base", 95, 1⟩],
    gears := [⟨1, 1, "Headlamp", "old", "Electronics", "base", 95, 1⟩],
    nextListId := 2, nextItemId := 2, nextGearId := 2 }

/-- C6 failing input: the description sync runs the items fan-out and
the catalog update as two separate bare statements (no transaction, in
either backend): the operation is literally the sequential composition
of `descItemsStmt` and `descGearsStmt`, and in the state after the
first statement the matching item already carries the new description
while the matching catalog row still carries the old one — the
intermediate state the claim says never exists. -/
theorem descSync_intermediate_state :
    ((descItemsStmt dbDescSync 1 "Headlamp" "base" 95 "new").items.map
        (fun i => i.description) = ["new"] ∧
      (descItemsStmt dbDescSync 1 "Headlamp" "base" 95 "new").gears.map
        (fun g => g.description) = ["old"]) ∧
    updateItemDescriptionAndSync_pg dbDescSync 1 1 "new" =
      (getItemById (descGearsStmt (descItemsStmt dbDescSync 1 "Headlamp" "base" 95 "new")
          1 "Headlamp" "base" 95 "new") 1 1,
       descGearsStmt (descItemsStmt dbDescSync 1 "Headlamp" "base" 95 "new")
         1 "Headlamp" "base" 95 "new") ∧
    updateItemDescriptionAndSync_sq dbDescSync 1 1 "new" =
      updateItemDescriptionAndSync_pg dbDescSync 1 1 "new" := by decide

/-! ## C8 — deleting the last list is refused; otherwise deletion
cascades and leaves the rest untouched -/

/-- C8: with exactly one list, the handler answers `LastListProtected`
and leaves the database unchanged; with at least two lists and a list
owned by the user, it succeeds, removes exactly that list and its
items, and leaves all other lists, items and the catalog unchanged. -/
theorem deleteList_lastProtected_and_cascade (db : Db) (userId listId : Nat) :
    (countPackLists db userId = 1 →
      deleteListHandler db userId listId = (.lastListProtected, db)) ∧
    (2 ≤ countPackLists db userId →
      (∃ l ∈ db.lists, l.user_id = userId ∧ l.id = listId) →
      (deleteListHandler db userId listId).1 = .ok ∧
      (deleteListHandler db userId listId).2.lists =
        db.lists.filter (fun l => ¬(l.user_id = userId ∧ l.id = listId)) ∧
      (deleteListHandler db userId listId).2.items =
        db.items.filter (fun i => ¬(i.user_id = userId ∧ i.list_id = some listId)) ∧
      (deleteListHandler db userId listId).2.gears = db.gears) := by
  constructor
  · intro h1
    unfold deleteListHandler
    rw [if_pos (by omega)]
  · rintro h2 ⟨l, hlmem, hlu, hlid⟩
    have hne : ¬ countPackLists db userId ≤ 1 := by omega
    have hd : deletePackList db userId listId =
        ((db.lists.filter (fun l => l.user_id == userId && l.id == listId)).length,
         { db with
           items := db.items.filter (fun i =>
             ¬(i.user_id = userId ∧ i.list_id = some listId)),
           lists := db.lists.filter (fun l =>
             ¬(l.user_id = userId ∧ l.id = listId)) }) := rfl
    have hmem : l ∈ db.lists.filter (fun l => l.user_id == userId && l.id == listId) :=
      List.mem_filter.mpr ⟨hlmem, by simp [hlu, hlid]⟩
    have hlen : ¬ (db.lists.filter (fun l => l.user_id == userId && l.id == listId)).length = 0 := by
      have := List.length_pos.mpr (List.ne_nil_of_mem hmem)
      omega
    unfold deleteListHandler
    rw [if_neg hne, hd]
    simp only
    rw [if_neg hlen]
    exact ⟨rfl, rfl, rfl, rfl⟩

/-- Witness for C8 on the two-list database, deleting list 2. -/
theorem deleteList_lastProtected_and_cascade_witness :
    (2 ≤ countPackLists dbTwoLists 1 ∧
      (∃ l ∈ dbTwoLists.lists, l.user_id = 1 ∧ l.id = 2)) ∧
    ((deleteListHandler dbTwoLists 1 2).1 = .ok ∧
      (deleteListHandler dbTwoLists 1 2).2.lists =
        dbTwoLists.lists.filter (fun l => ¬(l.user_id = 1 ∧ l.id = 2)) ∧
      (deleteListHandler dbTwoLists 1 2).2.items =
        dbTwoLists.items.filter (fun i => ¬(i.user_id = 1 ∧ i.list_id = some 2)) ∧
      (deleteListHandler dbTwoLists 1 2).2.gears = dbTwoLists.gears) :=
  ⟨⟨by decide, by decide⟩,
   (deleteList_lastProtected_and_cascade dbTwoLists 1 2).2 (by decide) (by decide)⟩

/-! ## C9 — `ensureDefaultList` is idempotent and seeds fresh users -/

/-- `minListById` returns `none` only on the empty row list. -/
theorem minListById_eq_none {l : List PackListRow} (h : minListById l = none) :
    l = [] := by
  cases l with
  | nil => rfl
  | cons a t =>
    exfalso
    unfold minListById at h
    cases h2 : minListById t <;> rw [h2] at h <;> simp at h

/-- The orphan-repair statement is idempotent. -/
theorem attachOrphan_idem (db : Db) (u lid : Nat) :
    attachOrphanItems (attachOrphanItems db u lid) u lid =
      attachOrphanItems db u lid := by
  unfold attachOrphanItems
  congr 1
  rw [List.map_map]
  apply List.map_congr_left
  intro i _
  simp only [Function.comp]
  by_cases h : i.user_id = u ∧ i.list_id = none
  · rw [if_pos h, if_neg (by simp)]
  · rw [if_neg h, if_neg h]

/-- The orphan-repair statement does nothing when the user has no
orphaned items. -/
theorem attachOrphan_noop (db : Db) (u lid : Nat)
    (h : ∀ i ∈ db.items, ¬(i.user_id = u ∧ i.list_id = none)) :
    attachOrphanItems db u lid = db := by
  unfold attachOrphanItems
  have hmap : db.items.map (fun i =>
      if i.user_id = u ∧ i.list_id = none
      then { i with list_id := some lid } else i) = db.items := by
    refine (List.map_congr_left ?_).trans (List.map_id _)
    intro i hi
    rw [if_neg (h i hi)]
    rfl
  rw [hmap]

/-- One seeding step (catalog upsert + item insert) leaves the
`pack_lists` table alone. -/
theorem seedStep_lists (acc : Db) (u : Nat) (lid : Option Nat)
    (n d c t : String) (w q : Int) (s : SeedItem) :
    ((insertItem (seedUpsertGear acc u s) u lid n d c t w q).2).lists = acc.lists := by
  unfold insertItem seedUpsertGear
  cases findGearByKey acc u s.name s.category s.ty s.weight <;> rfl

/-- One seeding step appends exactly one item row. -/
theorem seedStep_items (acc : Db) (u : Nat) (lid : Option Nat)
    (n d c t : String) (w q : Int) (s : SeedItem) :
    ((insertItem (seedUpsertGear acc u s) u lid n d c t w q).2).items =
      acc.items ++ [⟨acc.nextItemId, u, lid, n, d, c, t, w, q⟩] := by
  unfold insertItem seedUpsertGear
  cases findGearByKey acc u s.name s.category s.ty s.weight <;> rfl

/-- One seeding step advances the item id sequence by one. -/
theorem seedStep_nextItemId (acc : Db) (u : Nat) (lid : Option Nat)
    (n d c t : String) (w q : Int) (s : SeedItem) :
    ((insertItem (seedUpsertGear acc u s) u lid n d c t w q).2).nextItemId =
      acc.nextItemId + 1 := by
  unfold insertItem seedUpsertGear
  cases findGearByKey acc u s.name s.category s.ty s.weight <;> rfl

/-- The item rows produced by seeding a list of starter entries,
with ids from `nid`. -/
def seedItemsFrom (nid u : Nat) (lid : Option Nat) : List SeedItem → List Item
  | [] => []
  | s :: ss =>
    ⟨nid, u, lid, s.name, "", s.category, s.ty, s.weight, s.qty⟩ ::
      seedItemsFrom (nid + 1) u lid ss

/-- The seeding fold of `ensureDefaultList` leaves `pack_lists` alone. -/
theorem seedFold_lists (ss : List SeedItem) (acc : Db) (u : Nat) (lid : Option Nat) :
    (ss.foldl (fun a s =>
      (insertItem (seedUpsertGear a u s) u lid
        s.name "" s.category s.ty s.weight s.qty).2) acc).lists = acc.lists := by
  induction ss generalizing acc with
  | nil => rfl
  | cons s t ih =>
    rw [List.foldl_cons, ih, seedStep_lists]

/-- The seeding fold appends exactly the starter item rows. -/
theorem seedFold_items (ss : List SeedItem) (acc : Db) (u : Nat) (lid : Option Nat) :
    (ss.foldl (fun a s =>
      (insertItem (seedUpsertGear a u s) u lid
        s.name "" s.category s.ty s.weight s.qty).2) acc).items =
      acc.items ++ seedItemsFrom acc.nextItemId u lid ss := by
  induction ss generalizing acc with
  | nil => simp [seedItemsFrom]
  | cons s t ih =>
    rw [List.foldl_cons, ih, seedStep_items, seedStep_nextItemId, seedItemsFrom,
      List.append_assoc, List.singleton_append]

/-- Every seeded item row carries the seeded list id. -/
theorem seedItemsFrom_listId (nid u : Nat) (lid : Option Nat) (ss : List SeedItem) :
    ∀ i ∈ seedItemsFrom nid u lid ss, i.list_id = lid := by
  induction ss generalizing nid with
  | nil =>
    intro i hi
    simp [seedItemsFrom] at hi
  | cons s t ih =>
    intro i hi
    rw [seedItemsFrom, List.mem_cons] at hi
    rcases hi with h | h
    · subst h; rfl
    · exact ih (nid + 1) i h

/-- Every seeded item row belongs to the seeded user. -/
theorem seedItemsFrom_filter_user (nid u : Nat) (lid : Option Nat) (ss : List SeedItem) :
    (seedItemsFrom nid u lid ss).filter (fun i => i.user_id == u) =
      seedItemsFrom nid u lid ss := by
  induction ss generalizing nid with
  | nil => rfl
  | cons s t ih =>
    rw [seedItemsFrom, List.filter_cons]
    simp only [beq_self_eq_true, if_pos]
    rw [ih]

/-- The attribute projection of the seeded item rows is the starter
table itself. -/
theorem seedItemsFrom_proj (nid u : Nat) (lid : Option Nat) (ss : List SeedItem) :
    (seedItemsFrom nid u lid ss).map
        (fun i => (i.name, i.description, i.category, i.ty, i.weight, i.qty, i.list_id)) =
      ss.map (fun s => (s.name, "", s.category, s.ty, s.weight, s.qty, lid)) := by
  induction ss generalizing nid with
  | nil => rfl
  | cons s t ih =>
    rw [seedItemsFrom, List.map_cons, List.map_cons, ih]

/-- `ensureDefaultList` when the user already has a list: it returns
that list and runs only the orphan repair. -/
theorem ensure_found (X : Db) (u : Nat) (l : PackListRow)
    (hf : firstPackList X u = some l) :
    ensureDefaultList X u = (l, attachOrphanItems X u l.id) := by
  unfold ensureDefaultList
  rw [hf]

/-- `ensureDefaultList` when the user has no list: it creates the
default list, runs the seeding fold, then the orphan repair. -/
theorem ensure_notFound (X : Db) (u : Nat) (hf : firstPackList X u = none) :
    ensureDefaultList X u =
      (⟨X.nextListId, u, defaultListName⟩,
       attachOrphanItems
         (defaultSeedItems.foldl
           (fun acc s =>
             (insertItem (seedUpsertGear acc u s) u (some X.nextListId)
               s.name "" s.category s.ty s.weight s.qty).2)
           { X with
             lists := X.lists ++ [⟨X.nextListId, u, defaultListName⟩],
             nextListId := X.nextListId + 1 })
         u X.nextListId) := by
  unfold ensureDefaultList
  rw [hf]
  rfl

/-- The orphan repair does not change the `pack_lists` table, so the
first-list query is unaffected by it. -/
theorem firstPackList_attach (X : Db) (u lid : Nat) :
    firstPackList (attachOrphanItems X u lid) u = firstPackList X u := rfl

/-- The seeding fold does not change the `pack_lists` table. -/
theorem firstPackList_seedFold (ss : List SeedItem) (acc : Db) (u v : Nat)
    (lid : Option Nat) :
    firstPackList (ss.foldl (fun a s =>
      (insertItem (seedUpsertGear a u s) u lid
        s.name "" s.category s.ty s.weight s.qty).2) acc) v =
      minListById (acc.lists.filter (fun l => l.user_id == v)) := by
  unfold firstPackList
  rw [seedFold_lists]

/-- C9: calling `ensureDefaultList` a second time returns the same list
and leaves the database exactly as the first call left it (no second
list, no duplicated seeds); and on a user with no lists and no items
the first call creates exactly one list — named `defaultListName` —
whose user-visible item rows are exactly the fixed starter set attached
to that list. -/
theorem ensureDefaultList_idempotent_seeds (db : Db) (userId : Nat) :
    (ensureDefaultList (ensureDefaultList db userId).2 userId =
      ((ensureDefaultList db userId).1, (ensureDefaultList db userId).2)) ∧
    (db.lists.filter (fun l => l.user_id == userId) = [] →
      db.items.filter (fun i => i.user_id == userId) = [] →
      ((ensureDefaultList db userId).1 = ⟨db.nextListId, userId, defaultListName⟩ ∧
        (ensureDefaultList db userId).2.lists.filter (fun l => l.user_id == userId) =
          [⟨db.nextListId, userId, defaultListName⟩] ∧
        ((ensureDefaultList db userId).2.items.filter (fun i => i.user_id == userId)).map
            (fun i => (i.name, i.description, i.category, i.ty, i.weight, i.qty, i.list_id)) =
          defaultSeedItems.map
            (fun s => (s.name, "", s.category, s.ty, s.weight, s.qty, some db.nextListId)))) := by
  constructor
  · -- idempotence
    cases hf : firstPackList db userId with
    | some l =>
      rw [ensure_found db userId l hf]
      rw [ensure_found (attachOrphanItems db userId l.id) userId l
        (by rw [firstPackList_attach]; exact hf)]
      rw [attachOrphan_idem]
    | none =>
      have hempty : db.lists.filter (fun l => l.user_id == userId) = [] :=
        minListById_eq_none hf
      rw [ensure_notFound db userId hf]
      have hf3 : firstPackList
          (attachOrphanItems
            (defaultSeedItems.foldl
              (fun acc s =>
                (insertItem (seedUpsertGear acc userId s) userId (some db.nextListId)
                  s.name "" s.category s.ty s.weight s.qty).2)
              { db with
                lists := db.lists ++ [⟨db.nextListId, userId, defaultListName⟩],
                nextListId := db.nextListId + 1 })
            userId db.nextListId) userId =
          some ⟨db.nextListId, userId, defaultListName⟩ := by
        rw [firstPackList_attach, firstPackList_seedFold]
        show minListById ((db.lists ++ [(⟨db.nextListId, userId, defaultListName⟩ : PackListRow)]).filter
          (fun l => l.user_id == userId)) =
          some ⟨db.nextListId, userId, defaultListName⟩
        rw [List.filter_append, hempty]
        simp [minListById]
      rw [ensure_found _ userId _ hf3]
      have hid : (⟨db.nextListId, userId, defaultListName⟩ : PackListRow).id =
          db.nextListId := rfl
      rw [hid, attachOrphan_idem]
  · -- fresh-user seeding
    intro hL hI
    have hf : firstPackList db userId = none := by
      unfold firstPackList
      rw [hL]
      rfl
    have hnoorphan : ∀ i ∈ (defaultSeedItems.foldl
          (fun acc s =>
            (insertItem (seedUpsertGear acc userId s) userId (some db.nextListId)
              s.name "" s.category s.ty s.weight s.qty).2)
          { db with
            lists := db.lists ++ [⟨db.nextListId, userId, defaultListName⟩],
            nextListId := db.nextListId + 1 }).items,
        ¬(i.user_id = userId ∧ i.list_id = none) := by
      rw [seedFold_items]
      intro i hi
      rcases List.mem_append.mp hi with h | h
      · intro hc
        have := List.filter_eq_nil_iff.mp hI i h
        simp [hc.1] at this
      · intro hc
        have := seedItemsFrom_listId db.nextItemId userId (some db.nextListId)
          defaultSeedItems i h
        rw [this] at hc
        exact Option.some_ne_none _ hc.2
    rw [ensure_notFound db userId hf, attachOrphan_noop _ _ _ hnoorphan]
    refine ⟨rfl, ?_, ?_⟩
    · rw [seedFold_lists]
      show ((db.lists ++ [(⟨db.nextListId, userId, defaultListName⟩ : PackListRow)]).filter
          (fun l => l.user_id == userId)) =
        [⟨db.nextListId, userId, defaultListName⟩]
      rw [List.filter_append, hL]
      simp
    · rw [seedFold_items]
      show ((db.items ++ seedItemsFrom db.nextItemId userId (some db.nextListId)
            defaultSeedItems).filter (fun i => i.user_id == userId)).map
          (fun i => (i.name, i.description, i.category, i.ty, i.weight, i.qty, i.list_id)) =
        defaultSeedItems.map
          (fun s => (s.name, "", s.category, s.ty, s.weight, s.qty, some db.nextListId))
      rw [List.filter_append, hI, seedItemsFrom_filter_user, List.nil_append,
        seedItemsFrom_proj]

/-- An entirely fresh database: no lists, items or catalog rows. -/
def dbFresh : Db :=
  { lists := [], items := [], gears := [],
    nextListId := 1, nextItemId := 1, nextGearId := 1 }

/-- Witness for C9 on a fresh database (one user, nothing else). -/
theorem ensureDefaultList_idempotent_seeds_witness :
    (ensureDefaultList (ensureDefaultList dbFresh 1).2 1 =
      ((ensureDefaultList dbFresh 1).1, (ensureDefaultList dbFresh 1).2)) ∧
    (dbFresh.lists.filter (fun l => l.user_id == 1) = [] ∧
      dbFresh.items.filter (fun i => i.user_id == 1) = []) ∧
    ((ensureDefaultList dbFresh 1).1 = ⟨1, 1, defaultListName⟩ ∧
      (ensureDefaultList dbFresh 1).2.lists.filter (fun l => l.user_id == 1) =
        [⟨1, 1, defaultListName⟩] ∧
      ((ensureDefaultList dbFresh 1).2.items.filter (fun i => i.user_id == 1)).map
          (fun i => (i.name, i.description, i.category, i.ty, i.weight, i.qty, i.list_id)) =
        defaultSeedItems.map
          (fun s => (s.name, "", s.category, s.ty, s.weight, s.qty, some 1))) :=
  ⟨(ensureDefaultList_idempotent_seeds dbFresh 1).1,
   ⟨by decide, by decide⟩,
   (ensureDefaultList_idempotent_seeds dbFresh 1).2 (by decide) (by decide)⟩

/-! ## C10 — the PATCH pipeline applies fields in the order
type, weight, category, description -/

/-- `patchFinish` threads the state through unchanged. -/
theorem patchFinish_snd (cur : Option Item) (db : Db) :
    (patchFinish cur db).2 = db := by
  cases cur <;> rfl

/-- Evaluated form of `updateItemType` at a found item. -/
theorem updateItemType_eq (db : Db) (id userId : Nat) (t : String) (it : Item)
    (hit : getItemById db id userId = some it)
    (hid : it.id = id) (huid : it.user_id = userId) :
    updateItemType db id userId t =
      (some { it with ty := t },
       { db with items := db.items.map (fun i =>
           if i.id = id ∧ i.user_id = userId then { i with ty := t } else i) }) := by
  have hf : ∀ i : Item,
      ((if i.id = id ∧ i.user_id = userId then { i with ty := t } else i) : Item).id = i.id ∧
      ((if i.id = id ∧ i.user_id = userId then { i with ty := t } else i) : Item).user_id
        = i.user_id := by
    intro i
    by_cases h : i.id = id ∧ i.user_id = userId <;> simp [h]
  have h1 : getItemById
      { db with items := db.items.map (fun i =>
          if i.id = id ∧ i.user_id = userId then { i with ty := t } else i) } id userId =
      some { it with ty := t } := by
    rw [getItemById_rowUpdate db _ id userId _ hf rfl, hit, Option.map_some',
      if_pos ⟨hid, huid⟩]
  show (getItemById
      { db with items := db.items.map (fun i =>
          if i.id = id ∧ i.user_id = userId then { i with ty := t } else i) } id userId,
    ({ db with items := db.items.map (fun i =>
        if i.id = id ∧ i.user_id = userId then { i with ty := t } else i) } : Db)) = _
  rw [h1]

/-- Evaluated form of `updateItemCategory` at a found item. -/
theorem updateItemCategory_eq (db : Db) (id userId : Nat) (c : String) (it : Item)
    (hit : getItemById db id userId = some it)
    (hid : it.id = id) (huid : it.user_id = userId) :
    updateItemCategory db id userId c =
      (some { it with category := c },
       { db with items := db.items.map (fun i =>
           if i.id = id ∧ i.user_id = userId then { i with category := c } else i) }) := by
  have hf : ∀ i : Item,
      ((if i.id = id ∧ i.user_id = userId then { i with category := c } else i) : Item).id
        = i.id ∧
      ((if i.id = id ∧ i.user_id = userId then { i with category := c } else i) : Item).user_id
        = i.user_id := by
    intro i
    by_cases h : i.id = id ∧ i.user_id = userId <;> simp [h]
  have h1 : getItemById
      { db with items := db.items.map (fun i =>
          if i.id = id ∧ i.user_id = userId then { i with category := c } else i) } id userId =
      some { it with category := c } := by
    rw [getItemById_rowUpdate db _ id userId _ hf rfl, hit, Option.map_some',
      if_pos ⟨hid, huid⟩]
  show (getItemById
      { db with items := db.items.map (fun i =>
          if i.id = id ∧ i.user_id = userId then { i with category := c } else i) } id userId,
    ({ db with items := db.items.map (fun i =>
        if i.id = id ∧ i.user_id = userId then { i with category := c } else i) } : Db)) = _
  rw [h1]

/-- The PATCH pipeline over an arbitrary weight synchronizer whose
item-table effect is the pre-edit-key fan-out: with all four fields
present and valid, the items table receives, in order, the single-row
type update, the weight fan-out keyed on the NEW type and the PRE-EDIT
category and weight, the single-row category update, and the
description fan-out keyed on the new weight and new type. -/
theorem patchWith_spec
    (wsync : Db → Nat → Nat → Int → Option Item × Db)
    (hws : ∀ (db1 : Db) (id u : Nat) (w : Int) (it1 : Item),
      getItemById db1 id u = some it1 → ¬ it1.weight = w →
      (wsync db1 id u w).2.items =
        db1.items.map (fun i =>
          if i.user_id = u ∧ i.name = it1.name ∧ i.category = it1.category ∧
             i.ty = it1.ty ∧ i.weight = it1.weight
          then { i with weight := w } else i))
    (db : Db) (id userId : Nat) (tRaw cRaw dRaw : String) (w : Int) (it : Item)
    (hit : getItemById db id userId = some it)
    (ht : isValidType (jsTrim tRaw) = true)
    (hw : 0 < w) (hne : ¬ it.weight = w) (hc : ¬ jsTrim cRaw = "") :
    (patchItemWith wsync updateItemDescriptionAndSync_pg db id userId
        ⟨some tRaw, some w, some cRaw, some dRaw⟩).2.items =
      (((db.items.map (fun i =>
          if i.id = id ∧ i.user_id = userId then { i with ty := (jsTrim tRaw) } else i)).map
        (fun i =>
          if i.user_id = userId ∧ i.name = it.name ∧ i.category = it.category ∧
             i.ty = (jsTrim tRaw) ∧ i.weight = it.weight
          then { i with weight := w } else i)).map
        (fun i =>
          if i.id = id ∧ i.user_id = userId
          then { i with category := jsSlice 20 (jsTrim cRaw) } else i)).map
        (fun i =>
          if i.user_id = userId ∧ i.name = it.name ∧ i.ty = (jsTrim tRaw) ∧ i.weight = w
          then { i with description := jsSlice 80 (jsTrim dRaw) } else i) := by
  obtain ⟨hid, huid⟩ := getItemById_fields hit
  have hty := updateItemType_eq db id userId (jsTrim tRaw) it hit hid huid
  have h2 : getItemById
      { db with items := db.items.map (fun i =>
          if i.id = id ∧ i.user_id = userId then { i with ty := (jsTrim tRaw) } else i) }
      id userId = some { it with ty := (jsTrim tRaw) } := congrArg Prod.fst hty
  unfold patchItemWith
  rw [if_neg (by simp), hit]
  simp only
  rw [if_neg (not_not_intro ht), hty]
  simp only
  generalize hdb1 : ({ db with items := db.items.map (fun i =>
      if i.id = id ∧ i.user_id = userId then { i with ty := (jsTrim tRaw) } else i) } : Db) = db1
  rw [hdb1] at h2
  have hdb1items : db1.items = db.items.map (fun i =>
      if i.id = id ∧ i.user_id = userId then { i with ty := (jsTrim tRaw) } else i) := by
    rw [← hdb1]
  unfold patchWeightStep
  simp only
  rw [if_neg (by omega : ¬ w ≤ 0)]
  rcases hp : wsync db1 id userId w with ⟨r, db2⟩
  simp only
  have hitems2 : db2.items = db1.items.map (fun i =>
      if i.user_id = userId ∧ i.name = it.name ∧ i.category = it.category ∧
         i.ty = (jsTrim tRaw) ∧ i.weight = it.weight
      then { i with weight := w } else i) := by
    have h := hws db1 id userId w { it with ty := (jsTrim tRaw) } h2 hne
    rw [hp] at h
    exact h
  have hwf : ∀ i : Item,
      ((if i.user_id = userId ∧ i.name = it.name ∧ i.category = it.category ∧
           i.ty = (jsTrim tRaw) ∧ i.weight = it.weight
         then { i with weight := w } else i) : Item).id = i.id ∧
      ((if i.user_id = userId ∧ i.name = it.name ∧ i.category = it.category ∧
           i.ty = (jsTrim tRaw) ∧ i.weight = it.weight
         then { i with weight := w } else i) : Item).user_id = i.user_id := by
    intro i
    by_cases h : i.user_id = userId ∧ i.name = it.name ∧ i.category = it.category ∧
        i.ty = (jsTrim tRaw) ∧ i.weight = it.weight <;> simp [h]
  have h3 : getItemById db2 id userId =
      some { it with ty := (jsTrim tRaw), weight := w } := by
    rw [getItemById_rowUpdate db1 db2 id userId _ hwf hitems2, h2, Option.map_some',
      if_pos ⟨huid, rfl, rfl, rfl, rfl⟩]
  unfold patchCategoryStep
  simp only
  rw [if_neg hc]
  rw [updateItemCategory_eq db2 id userId (jsSlice 20 (jsTrim cRaw))
    { it with ty := (jsTrim tRaw), weight := w } h3 hid huid]
  simp only
  have hcf : ∀ i : Item,
      ((if i.id = id ∧ i.user_id = userId
         then { i with category := jsSlice 20 (jsTrim cRaw) } else i) : Item).id = i.id ∧
      ((if i.id = id ∧ i.user_id = userId
         then { i with category := jsSlice 20 (jsTrim cRaw) } else i) : Item).user_id = i.user_id := by
    intro i
    by_cases h : i.id = id ∧ i.user_id = userId <;> simp [h]
  have h4 : getItemById
      { db2 with items := db2.items.map (fun i =>
          if i.id = id ∧ i.user_id = userId
          then { i with category := jsSlice 20 (jsTrim cRaw) } else i) } id userId =
      some { it with ty := (jsTrim tRaw), weight := w, category := jsSlice 20 (jsTrim cRaw) } := by
    rw [getItemById_rowUpdate db2 _ id userId _ hcf rfl, h3, Option.map_some',
      if_pos ⟨hid, huid⟩]
  unfold patchDescriptionStep
  simp only
  unfold updateItemDescriptionAndSync_pg
  rw [h4]
  simp only
  rw [patchFinish_snd]
  show ((db2.items.map (fun i =>
      if i.id = id ∧ i.user_id = userId
      then { i with category := jsSlice 20 (jsTrim cRaw) } else i)).map (fun i =>
      if i.user_id = userId ∧ i.name = it.name ∧ i.ty = (jsTrim tRaw) ∧ i.weight = w
      then { i with description := jsSlice 80 (jsTrim dRaw) } else i)) = _
  rw [hitems2, hdb1items]

/-- C10: a PATCH request carrying all of type, weight, category and
description applies them in the fixed order type → weight → category →
description; consequently the weight fan-out selects sibling items
using the item's PRE-EDIT category (the category update comes later)
and the NEWLY-SET type (the type update comes first); and the two
backends leave identical items tables. -/
theorem patch_fixed_order (db : Db) (id userId : Nat)
    (tRaw cRaw dRaw : String) (w : Int) (it : Item)
    (hit : getItemById db id userId = some it)
    (ht : isValidType (jsTrim tRaw) = true)
    (hw : 0 < w) (hne : ¬ it.weight = w) (hc : ¬ jsTrim cRaw = "") :
    ((patchItem_pg db id userId ⟨some tRaw, some w, some cRaw, some dRaw⟩).2.items =
      (((db.items.map (fun i =>
          if i.id = id ∧ i.user_id = userId then { i with ty := (jsTrim tRaw) } else i)).map
        (fun i =>
          if i.user_id = userId ∧ i.name = it.name ∧ i.category = it.category ∧
             i.ty = (jsTrim tRaw) ∧ i.weight = it.weight
          then { i with weight := w } else i)).map
        (fun i =>
          if i.id = id ∧ i.user_id = userId
          then { i with category := jsSlice 20 (jsTrim cRaw) } else i)).map
        (fun i =>
          if i.user_id = userId ∧ i.name = it.name ∧ i.ty = (jsTrim tRaw) ∧ i.weight = w
          then { i with description := jsSlice 80 (jsTrim dRaw) } else i)) ∧
    (patchItem_sq db id userId ⟨some tRaw, some w, some cRaw, some dRaw⟩).2.items =
      (patchItem_pg db id userId ⟨some tRaw, some w, some cRaw, some dRaw⟩).2.items := by
  have hpg := patchWith_spec updateItemWeightAndSync_pg
    (fun db1 id u w it1 h1 h2 => weightSync_pg_items db1 id u w it1 h1 h2)
    db id userId tRaw cRaw dRaw w it hit ht hw hne hc
  have hsq := patchWith_spec updateItemWeightAndSync_sq
    (fun db1 id u w it1 h1 h2 => weightSync_sq_items db1 id u w it1 h1 h2)
    db id userId tRaw cRaw dRaw w it hit ht hw hne hc
  exact ⟨hpg, hsq.trans hpg.symm⟩

/-- Witness for C10 on the two-list `Tent` database: a single request
setting type `worn`, weight 1100, category `" Gear "` and description
`"desc"`. -/
theorem patch_fixed_order_witness :
    (getItemById dbTwoLists 1 1 = some itemTentA ∧
      isValidType (jsTrim "worn") = true ∧ (0 : Int) < 1100 ∧
      ¬ itemTentA.weight = 1100 ∧ ¬ jsTrim " Gear " = "") ∧
    (((patchItem_pg dbTwoLists 1 1 ⟨some "worn", some 1100, some " Gear ", some "desc"⟩).2.items =
      (((dbTwoLists.items.map (fun i =>
          if i.id = 1 ∧ i.user_id = 1 then { i with ty := (jsTrim "worn") } else i)).map
        (fun i =>
          if i.user_id = 1 ∧ i.name = itemTentA.name ∧ i.category = itemTentA.category ∧
             i.ty = (jsTrim "worn") ∧ i.weight = itemTentA.weight
          then { i with weight := 1100 } else i)).map
        (fun i =>
          if i.id = 1 ∧ i.user_id = 1
          then { i with category := jsSlice 20 (jsTrim " Gear ") } else i)).map
        (fun i =>
          if i.user_id = 1 ∧ i.name = itemTentA.name ∧ i.ty = (jsTrim "worn") ∧ i.weight = 1100
          then { i with description := jsSlice 80 (jsTrim "desc") } else i)) ∧
    (patchItem_sq dbTwoLists 1 1 ⟨some "worn", some 1100, some " Gear ", some "desc"⟩).2.items =
      (patchItem_pg dbTwoLists 1 1 ⟨some "worn", some 1100, some " Gear ", some "desc"⟩).2.items) :=
  ⟨⟨by decide, by decide, by decide, by decide, by decide⟩,
   patch_fixed_order dbTwoLists 1 1 "worn" " Gear " "desc" 1100 itemTentA
     (by decide) (by decide) (by decide) (by decide) (by decide)⟩

/-! ## C5 — backend equivalence -/

/-- The postgres weight sync leaves `pack_lists` alone. -/
theorem weightSync_pg_lists (db : Db) (id userId : Nat) (w : Int) (it : Item)
    (hit : getItemById db id userId = some it) (hne : ¬ it.weight = w) :
    (updateItemWeightAndSync_pg db id userId w).2.lists = db.lists := by
  unfold updateItemWeightAndSync_pg
  rw [hit]
  simp only [if_neg hne]
  cases hg : findGearByKey (weightItemsStmt db userId it.name it.category it.ty it.weight w)
      userId it.name it.category it.ty w with
  | none => simp [hg, weightItemsStmt]
  | some g => simp [hg, weightItemsStmt]

/-- The sqlite weight sync leaves `pack_lists` alone. -/
theorem weightSync_sq_lists (db : Db) (id userId : Nat) (w : Int) (it : Item)
    (hit : getItemById db id userId = some it) (hne : ¬ it.weight = w) :
    (updateItemWeightAndSync_sq db id userId w).2.lists = db.lists := by
  unfold updateItemWeightAndSync_sq
  rw [hit]
  simp only [if_neg hne]
  cases hg : findGearByKey (weightItemsStmt db userId it.name it.category it.ty it.weight w)
      userId it.name it.category it.ty w with
  | none => simp [hg, weightItemsStmt]
  | some g => simp [hg, weightItemsStmt]

/-- One user whose catalog already holds a row at the weight edit's NEW
key `("Tent", "Shelter", "base", 1100)` besides the pre-edit row. -/
def dbMerge : Db :=
  { lists := [⟨1, 1, "A"⟩],
    items := [⟨1, 1, some 1, "Tent", "x", "Shelter", "base", 1200, 2⟩],
    gears := [⟨1, 1, "Tent", "g1", "Shelter", "base", 1200, 3⟩,
              ⟨2, 1, "Tent", "g2", "Shelter", "base", 1100, 1⟩],
    nextListId := 2, nextItemId := 2, nextGearId := 3 }

/-- Counterexample to C5: the two backends do NOT produce equal results
on every operation.  Cloning drops item descriptions on postgres only,
and a weight edit whose new key already has a catalog row folds the
row's default quantity and description on postgres while sqlite leaves
the row untouched. -/
theorem backends_not_equivalent :
    ¬ clonePackList_pg dbCloneSrc 1 1 "B" = clonePackList_sq dbCloneSrc 1 1 "B" ∧
    ¬ updateItemWeightAndSync_pg dbMerge 1 1 1100 =
        updateItemWeightAndSync_sq dbMerge 1 1 1100 ∧
    (updateItemWeightAndSync_pg dbMerge 1 1 1100).2.gears =
      [⟨2, 1, "Tent", "x", "Shelter", "base", 1100, 2⟩] ∧
    (updateItemWeightAndSync_sq dbMerge 1 1 1100).2.gears =
      [⟨2, 1, "Tent", "g2", "Shelter", "base", 1100, 1⟩] := by decide

/-- C5 as amended: the backends agree on the description sync, the
catalog upsert (sqlite wraps the returned row in `some`), the presence
listing, and on weight edits whose new key has no existing catalog row
(equal returned row and equal lists, items and catalog tables); the
operations embedded by a single shared definition (`ensureDefaultList`,
`createPackList`, `deletePackList`, `insertItem`, `updateItemType`,
`updateItemCategory`, `deleteListHandler`) coincide by definition.  The
divergent cases — cloning and the weight merge onto an existing new-key
row — are exhibited by the counterexample. -/
theorem backendEquivalence_amended :
    (∀ (db : Db) (id userId : Nat) (d : String),
      updateItemDescriptionAndSync_sq db id userId d =
        updateItemDescriptionAndSync_pg db id userId d) ∧
    (∀ (db : Db) (userId : Nat) (c : GearCandidate),
      upsertGear_sq db userId c =
        (some (upsertGear_pg db userId c).1, (upsertGear_pg db userId c).2)) ∧
    (∀ (db : Db) (userId listId : Nat),
      listGears_sq db userId listId = listGears_pg db userId listId) ∧
    (∀ (db : Db) (id userId : Nat) (w : Int) (it : Item),
      getItemById db id userId = some it → ¬ it.weight = w →
      (∀ g ∈ db.gears, g.id < db.nextGearId) →
      findGearByKey db userId it.name it.category it.ty w = none →
      ((updateItemWeightAndSync_sq db id userId w).1 =
          (updateItemWeightAndSync_pg db id userId w).1 ∧
        (updateItemWeightAndSync_sq db id userId w).2.lists =
          (updateItemWeightAndSync_pg db id userId w).2.lists ∧
        (updateItemWeightAndSync_sq db id userId w).2.items =
          (updateItemWeightAndSync_pg db id userId w).2.items ∧
        (updateItemWeightAndSync_sq db id userId w).2.gears =
          (updateItemWeightAndSync_pg db id userId w).2.gears)) := by
  refine ⟨descSync_backends_eq, upsertGear_sq_eq_pg, fun _ _ _ => rfl, ?_⟩
  intro db id userId w it hit hne hFresh hg
  refine ⟨?_, ?_, ?_, ?_⟩
  · rw [weightSync_sq_fst db id userId w it hit hne,
      weightSync_pg_fst db id userId w it hit hne]
    unfold getItemById
    rw [weightSync_sq_items db id userId w it hit hne,
      weightSync_pg_items db id userId w it hit hne]
  · rw [weightSync_sq_lists db id userId w it hit hne,
      weightSync_pg_lists db id userId w it hit hne]
  · rw [weightSync_sq_items db id userId w it hit hne,
      weightSync_pg_items db id userId w it hit hne]
  · rw [weightMergeGears_sq_none db id userId w it hit hne hg,
      weightMergeGears_pg_none db id userId w it hit hne hFresh hg]

/-- Witness for the amended C5, instantiating every component at a
concrete database. -/
theorem backendEquivalence_amended_witness :
    (updateItemDescriptionAndSync_sq dbHeadlamp 1 1 "usb" =
      updateItemDescriptionAndSync_pg dbHeadlamp 1 1 "usb") ∧
    (upsertGear_sq dbGear5 1 candTent3 =
      (some (upsertGear_pg dbGear5 1 candTent3).1, (upsertGear_pg dbGear5 1 candTent3).2)) ∧
    (listGears_sq dbTwoLists 1 1 = listGears_pg dbTwoLists 1 1) ∧
    ((getItemById dbQty5 1 1 = some itemTentA ∧ ¬ itemTentA.weight = (1100 : Int) ∧
        (∀ g ∈ dbQty5.gears, g.id < dbQty5.nextGearId) ∧
        findGearByKey dbQty5 1 itemTentA.name itemTentA.category itemTentA.ty 1100 = none) ∧
      ((updateItemWeightAndSync_sq dbQty5 1 1 1100).1 =
          (updateItemWeightAndSync_pg dbQty5 1 1 1100).1 ∧
        (updateItemWeightAndSync_sq dbQty5 1 1 1100).2.lists =
          (updateItemWeightAndSync_pg dbQty5 1 1 1100).2.lists ∧
        (updateItemWeightAndSync_sq dbQty5 1 1 1100).2.items =
          (updateItemWeightAndSync_pg dbQty5 1 1 1100).2.items ∧
        (updateItemWeightAndSync_sq dbQty5 1 1 1100).2.gears =
          (updateItemWeightAndSync_pg dbQty5 1 1 1100).2.gears)) :=
  ⟨backendEquivalence_amended.1 dbHeadlamp 1 1 "usb",
   backendEquivalence_amended.2.1 dbGear5 1 candTent3,
   backendEquivalence_amended.2.2.1 dbTwoLists 1 1,
   ⟨⟨by decide, by decide, by decide, by decide⟩,
    backendEquivalence_amended.2.2.2 dbQty5 1 1 1100 itemTentA
      (by decide) (by decide) (by decide) (by decide)⟩⟩

end TrailPack
